import Mathlib

/-!
# StackPilot mock-exchange service: verification of the spec against the code

Shallow embedding of `apps/mock-exchange/app.py`: the environment-variable
configuration, the database helpers (`db_dsn_or_empty`, `db_ping`,
`db_connect`) and the service endpoints (`health`, `ready`, `price`,
`create_order`, `get_order`).

Modelling conventions:
* Environment variables are a total map `String → Option String`; Python
  truthiness of `os.getenv(k)` (`None` and `""` are falsy) is `envTruthy`.
* The PostgreSQL backend is a `Backend` value: the outcome of a connection
  attempt (`Except String Unit`, the error carrying the Python exception
  type name), the table of order rows, the fresh UUID the generator would
  produce next, and the server clock used for `created_at`.
* HTTP exceptions (`HTTPException(status_code, detail)`) become the error
  side of `Except HTTPErr _`; a handler that returns normally is `.ok`.
* Numeric values (`qty`, prices) are modelled as `Rat`; the concrete
  values in the claims (1.5, 52000.0, 3100.0) are exactly representable,
  so no floating-point rounding is observable in any claim.
* Python's `str.upper`/`str.lower` are modelled on the ASCII range
  (`pyUpper`/`pyLower`), which is exact on every string the service
  compares against (`"BTC"`, `"ETH"`, `"buy"`, `"sell"`).
-/

namespace StackPilot

/-- An environment: variable name to optional value, as read by `os.getenv`. -/
def Env : Type := String → Option String

/-- Python truthiness of `os.getenv(k)`: present and non-empty. -/
def envTruthy (env : Env) (k : String) : Bool :=
  match env k with
  | none => false
  | some s => s ≠ ""

/-- `os.getenv(k, default)`: the value if the variable is set, else the default. -/
def getenvD (env : Env) (k d : String) : String :=
  (env k).getD d

/-- ASCII uppercase of one character, as Python's `str.upper` acts on ASCII. -/
def pyUpperChar (c : Char) : Char :=
  if 97 ≤ c.toNat ∧ c.toNat ≤ 122 then Char.ofNat (c.toNat - 32) else c

/-- ASCII lowercase of one character, as Python's `str.lower` acts on ASCII. -/
def pyLowerChar (c : Char) : Char :=
  if 65 ≤ c.toNat ∧ c.toNat ≤ 90 then Char.ofNat (c.toNat + 32) else c

/-- `s.upper()` on the ASCII range. -/
def pyUpper (s : String) : String := ⟨s.data.map pyUpperChar⟩

/-- `s.lower()` on the ASCII range. -/
def pyLower (s : String) : String := ⟨s.data.map pyLowerChar⟩

/-- A `datetime` value as stored in the `created_at` column; all the service
does with it is render it, so the model carries its `isoformat()` text. -/
structure Timestamp where
  iso : String
deriving DecidableEq

/-- One row of the `orders` table: columns
`(id, symbol, side, qty, status, created_at)`. -/
structure Row where
  id : String
  symbol : String
  side : String
  qty : Rat
  status : String
  created_at : Option Timestamp
deriving DecidableEq

/-- The state of the PostgreSQL dependency as one request observes it. -/
structure Backend where
  /-- Outcome of attempting a connection round-trip: `.ok ()` when the
  database answers, `.error e` when it raises, `e` the exception type name. -/
  connect : Except String Unit
  /-- The `orders` table. -/
  store : List Row
  /-- The UUID `uuid.uuid4()` would generate next. -/
  freshId : String
  /-- The server clock, used for the `created_at` column default. -/
  now : Timestamp

/-- An `HTTPException(status_code, detail)`. -/
structure HTTPErr where
  status : Nat
  detail : String
deriving DecidableEq

/-- The startup configuration built by `load_config_or_die`. -/
structure Config where
  service : String
  env : String
  version : String
  log_level : String
  git_sha : String
  build_time : String
deriving DecidableEq

/-- `DB_REQUIRED_VARS = ["DB_HOST", "DB_NAME", "DB_USER", "DB_PASSWORD"]`. -/
def DB_REQUIRED_VARS : List String := ["DB_HOST", "DB_NAME", "DB_USER", "DB_PASSWORD"]

/-- `db_dsn_or_empty`: the DSN string if every required variable is set
(truthy), the empty string otherwise. -/
def db_dsn_or_empty (env : Env) : String :=
  if (DB_REQUIRED_VARS.filter (fun k => ¬ envTruthy env k)) ≠ [] then ""
  else
    "host=" ++ getenvD env "DB_HOST" "" ++ " " ++
    "port=" ++ getenvD env "DB_PORT" "5432" ++ " " ++
    "dbname=" ++ getenvD env "DB_NAME" "" ++ " " ++
    "user=" ++ getenvD env "DB_USER" "" ++ " " ++
    "password=" ++ getenvD env "DB_PASSWORD" "" ++ " " ++
    "connect_timeout=2"

/-- `db_ping`: the readiness probe used only by `/ready`. -/
def db_ping (env : Env) (b : Backend) : Bool × String :=
  let dsn := db_dsn_or_empty env
  if dsn = "" then (false, "db_config_missing")
  else
    match b.connect with
    | .ok () => (true, "ok")
    | .error e => (false, "db_unreachable:" ++ e)

/-- `db_connect`: connection for request handlers; raises HTTP 503 when the
configuration is missing or the backend is unreachable. -/
def db_connect (env : Env) (b : Backend) : Except HTTPErr Unit :=
  let dsn := db_dsn_or_empty env
  if dsn = "" then .error ⟨503, "db_config_missing"⟩
  else
    match b.connect with
    | .ok () => .ok ()
    | .error _ => .error ⟨503, "db_unreachable"⟩

/-- Response body of `GET /health`. -/
structure HealthResp where
  ok : Bool
deriving DecidableEq

/-- The `checks` map of `GET /ready`. -/
structure ReadyChecks where
  config_loaded : Bool
  db : Bool
deriving DecidableEq

/-- Response body of `GET /ready`. -/
structure ReadyResp where
  ready : Bool
  checks : ReadyChecks
deriving DecidableEq

/-- Response body of `GET /price`. -/
structure PriceResp where
  symbol : String
  price : Rat
deriving DecidableEq

/-- Response body of `POST /order`. -/
structure CreateResp where
  order_id : String
  status : String
deriving DecidableEq

/-- Response body of `GET /orders/{order_id}`. -/
structure OrderOut where
  order_id : String
  symbol : String
  side : String
  qty : Rat
  status : String
  created_at : Option String
deriving DecidableEq

/-- `health`: the liveness probe; returns `{"ok": True}` reading no state. -/
def health (_cfg : Option Config) (_env : Env) (_b : Backend) :
    Except HTTPErr HealthResp :=
  .ok ⟨true⟩

/-- `ready`: 503 `config_not_loaded` when `CONFIG is None`, 503 with the
`db_ping` reason when the probe fails, else the ready body. -/
def ready (cfg : Option Config) (env : Env) (b : Backend) :
    Except HTTPErr ReadyResp :=
  match cfg with
  | none => .error ⟨503, "config_not_loaded"⟩
  | some _ =>
    match db_ping env b with
    | (true, _) => .ok ⟨true, ⟨true, true⟩⟩
    | (false, reason) => .error ⟨503, reason⟩

/-- The static price table of `GET /price`. -/
def prices : List (String × Rat) := [("BTC", 52000), ("ETH", 3100)]

/-- `price`: uppercase the symbol, look it up in the static table,
400 `unsupported_symbol` when absent. -/
def price (symbol : String) : Except HTTPErr PriceResp :=
  let symbol := pyUpper symbol
  match prices.lookup symbol with
  | none => .error ⟨400, "unsupported_symbol"⟩
  | some p => .ok ⟨symbol, p⟩

/-- Modelled from the spec: the `orders` table schema is not under `src/`
(`create_order` inserts without a `created_at` value and the column is
filled by the database). Per the spec, `created_at` is a
"server-assigned timestamp, set at persistence time". -/
def serverAssignedCreatedAt (b : Backend) : Option Timestamp :=
  some b.now

/-- `create_order`: validate symbol, side, qty in that order (400 on the
first failure), then connect (503 on dependency failure), then insert the
row and return `{order_id, status}`. The second component is the `orders`
table after the request. -/
def create_order (env : Env) (b : Backend) (symbol side : String) (qty : Rat) :
    Except HTTPErr CreateResp × List Row :=
  let symbol := pyUpper symbol
  let side := pyLower side
  if symbol ∉ ["BTC", "ETH"] then (.error ⟨400, "unsupported_symbol"⟩, b.store)
  else if side ∉ ["buy", "sell"] then (.error ⟨400, "invalid_side"⟩, b.store)
  else if qty ≤ 0 then (.error ⟨400, "invalid_qty"⟩, b.store)
  else
    let order_id := b.freshId
    match db_connect env b with
    | .error e => (.error e, b.store)
    | .ok () =>
      (.ok ⟨order_id, "accepted"⟩,
       ⟨order_id, symbol, side, qty, "accepted", serverAssignedCreatedAt b⟩ :: b.store)

/-- `get_order`: connect (503 on dependency failure), select the row by id
(404 when absent), else rebuild the order with `qty` as a float and
`created_at` rendered by `isoformat()` when non-null. -/
def get_order (env : Env) (b : Backend) (order_id : String) :
    Except HTTPErr OrderOut :=
  match db_connect env b with
  | .error e => .error e
  | .ok () =>
    match b.store.find? (fun r => r.id = order_id) with
    | none => .error ⟨404, "order_not_found"⟩
    | some r => .ok ⟨r.id, r.symbol, r.side, r.qty, r.status,
        r.created_at.map Timestamp.iso⟩

/-! Concrete states used by witnesses and counterexamples. -/

/-- An environment with no variable set. -/
def env0 : Env := fun _ => none

/-- An environment with every required DB variable set (to `"x"`). -/
def env1 : Env := fun k => if k ∈ DB_REQUIRED_VARS then some "x" else none

/-- A concrete server timestamp. -/
def ts0 : Timestamp := ⟨"2026-01-01T00:00:00"⟩

/-- A reachable backend with an empty `orders` table. -/
def bOk : Backend := ⟨.ok (), [], "uuid-1", ts0⟩

/-- An unreachable backend: connecting raises `OSError`. -/
def bDown : Backend := ⟨.error "OSError", [], "uuid-1", ts0⟩

/-- A stored order row. -/
def row0 : Row := ⟨"id0", "BTC", "buy", 2, "accepted", some ts0⟩

/-- A reachable backend whose `orders` table holds `row0`. -/
def bRow : Backend := ⟨.ok (), [row0], "uuid-2", ts0⟩

/-- A concrete loaded startup configuration. -/
def cfg0 : Config := ⟨"svc", "dev", "1", "info", "sha", "t"⟩

/-! Helper lemmas on the ASCII case maps. -/

theorem pyUpperChar_idem (c : Char) : pyUpperChar (pyUpperChar c) = pyUpperChar c := by
  unfold pyUpperChar
  by_cases h : 97 ≤ c.toNat ∧ c.toNat ≤ 122
  · simp only [if_pos h]
    obtain ⟨h1, h2⟩ := h
    generalize c.toNat = n at h1 h2
    interval_cases n <;> decide
  · simp only [if_neg h]

theorem pyLowerChar_idem (c : Char) : pyLowerChar (pyLowerChar c) = pyLowerChar c := by
  unfold pyLowerChar
  by_cases h : 65 ≤ c.toNat ∧ c.toNat ≤ 90
  · simp only [if_pos h]
    obtain ⟨h1, h2⟩ := h
    generalize c.toNat = n at h1 h2
    interval_cases n <;> decide
  · simp only [if_neg h]

theorem pyUpper_idem (s : String) : pyUpper (pyUpper s) = pyUpper s := by
  have h : pyUpperChar ∘ pyUpperChar = pyUpperChar := funext pyUpperChar_idem
  simp [pyUpper, List.map_map, h]

theorem pyLower_idem (s : String) : pyLower (pyLower s) = pyLower s := by
  have h : pyLowerChar ∘ pyLowerChar = pyLowerChar := funext pyLowerChar_idem
  simp [pyLower, List.map_map, h]

/-- C1: `create_order` evaluates its validation checks in the fixed order
symbol, side, qty and reports the first failing reason: a case-normalized
symbol outside {BTC, ETH} yields `unsupported_symbol` regardless of side and
qty; a valid symbol with a side outside {buy, sell} yields `invalid_side`;
valid symbol and side with `qty ≤ 0` yields `invalid_qty`. -/
theorem create_order_validation_order (env : Env) (b : Backend)
    (symbol side : String) (qty : Rat) :
    (pyUpper symbol ∉ ["BTC", "ETH"] →
      (create_order env b symbol side qty).1 = .error ⟨400, "unsupported_symbol"⟩) ∧
    (pyUpper symbol ∈ ["BTC", "ETH"] → pyLower side ∉ ["buy", "sell"] →
      (create_order env b symbol side qty).1 = .error ⟨400, "invalid_side"⟩) ∧
    (pyUpper symbol ∈ ["BTC", "ETH"] → pyLower side ∈ ["buy", "sell"] → qty ≤ 0 →
      (create_order env b symbol side qty).1 = .error ⟨400, "invalid_qty"⟩) := by
  refine ⟨fun h1 => ?_, fun h1 h2 => ?_, fun h1 h2 h3 => ?_⟩
  · simp only [create_order]
    rw [if_pos h1]
  · simp only [create_order]
    rw [if_neg (fun hc => hc h1), if_pos h2]
  · simp only [create_order]
    rw [if_neg (fun hc => hc h1), if_neg (fun hc => hc h2), if_pos h3]

/-- Witness for C1 at concrete inputs: an unsupported symbol, a bad side on a
valid symbol, and a zero quantity on valid symbol and side. -/
theorem create_order_validation_order_witness :
    (create_order env1 bOk "DOGE" "buy" 1).1 = .error ⟨400, "unsupported_symbol"⟩ ∧
    (create_order env1 bOk "BTC" "hold" 1).1 = .error ⟨400, "invalid_side"⟩ ∧
    (create_order env1 bOk "BTC" "buy" 0).1 = .error ⟨400, "invalid_qty"⟩ :=
  ⟨(create_order_validation_order env1 bOk "DOGE" "buy" 1).1 (by decide),
   (create_order_validation_order env1 bOk "BTC" "hold" 1).2.1 (by decide) (by decide),
   (create_order_validation_order env1 bOk "BTC" "buy" 0).2.2 (by decide) (by decide)
     (le_refl 0)⟩

/-- C2: `create_order` changes the order store only on full success: every
request that ends in an error, validation or dependency, leaves the table
unchanged; on valid input a missing configuration yields 503
`db_config_missing` and an unreachable backend yields 503 `db_unreachable`,
both without writing a row. -/
theorem create_order_store_unchanged_on_error (env : Env) (b : Backend)
    (symbol side : String) (qty : Rat) :
    (∀ e, (create_order env b symbol side qty).1 = .error e →
      (create_order env b symbol side qty).2 = b.store) ∧
    (pyUpper symbol ∈ ["BTC", "ETH"] → pyLower side ∈ ["buy", "sell"] → 0 < qty →
      db_dsn_or_empty env = "" →
      create_order env b symbol side qty = (.error ⟨503, "db_config_missing"⟩, b.store)) ∧
    (∀ e2, pyUpper symbol ∈ ["BTC", "ETH"] → pyLower side ∈ ["buy", "sell"] → 0 < qty →
      db_dsn_or_empty env ≠ "" → b.connect = .error e2 →
      create_order env b symbol side qty = (.error ⟨503, "db_unreachable"⟩, b.store)) := by
  refine ⟨fun e h => ?_, fun h1 h2 h3 h4 => ?_, fun e2 h1 h2 h3ᵣ h4 h5 => ?_⟩
  · simp only [create_order] at h ⊢
    split_ifs at h ⊢ <;> try rfl
    cases hdc : db_connect env b with
    | error e3 => rfl
    | ok u => cases u; rw [hdc] at h; simp at h
  · have hq : ¬ qty ≤ 0 := not_le.mpr h3
    simp only [create_order]
    rw [if_neg (fun hc => hc h1), if_neg (fun hc => hc h2), if_neg hq]
    simp [db_connect, h4]
  · have hq : ¬ qty ≤ 0 := not_le.mpr h3ᵣ
    simp only [create_order]
    rw [if_neg (fun hc => hc h1), if_neg (fun hc => hc h2), if_neg hq]
    simp [db_connect, h4, h5]

/-- Witness for C2 at concrete inputs: a validation failure leaves the empty
store empty, and on valid input a missing configuration and an unreachable
backend each return their 503 error with the store untouched. -/
theorem create_order_store_unchanged_on_error_witness :
    (create_order env1 bOk "DOGE" "buy" 1).2 = bOk.store ∧
    create_order env0 bOk "BTC" "buy" 1 = (.error ⟨503, "db_config_missing"⟩, bOk.store) ∧
    create_order env1 bDown "BTC" "buy" 1 = (.error ⟨503, "db_unreachable"⟩, bDown.store) :=
  ⟨(create_order_store_unchanged_on_error env1 bOk "DOGE" "buy" 1).1
      ⟨400, "unsupported_symbol"⟩ rfl,
   (create_order_store_unchanged_on_error env0 bOk "BTC" "buy" 1).2.1
      (by decide) (by decide) (by norm_num) (by decide),
   (create_order_store_unchanged_on_error env1 bDown "BTC" "buy" 1).2.2
      "OSError" (by decide) (by decide) (by norm_num) (by decide) rfl⟩

/-- C3: the readiness endpoint succeeds (with `ready:true`) exactly when the
startup configuration is loaded and the dependency probe passes; whenever the
probe fails the endpoint refuses with a 503 error, even if the configuration
loaded successfully, so it never reports ready. -/
theorem ready_true_iff_config_and_db (cfg : Option Config) (env : Env) (b : Backend) :
    ((∃ r, ready cfg env b = .ok r) ↔ cfg.isSome = true ∧ (db_ping env b).1 = true) ∧
    (∀ r, ready cfg env b = .ok r → r = ⟨true, ⟨true, true⟩⟩) ∧
    ((db_ping env b).1 = false → ∃ d, ready cfg env b = .error ⟨503, d⟩) := by
  cases cfg with
  | none => simp [ready]
  | some c =>
    rcases hp : db_ping env b with ⟨okb, reason⟩
    cases okb <;> simp [ready, hp]

/-- Witness for C3: with the configuration loaded but the backend down, the
readiness endpoint returns a 503 error. -/
theorem ready_true_iff_config_and_db_witness :
    ∃ d, ready (some cfg0) env1 bDown = .error ⟨503, d⟩ :=
  (ready_true_iff_config_and_db (some cfg0) env1 bDown).2.2 (by decide)

/-- Counterexample to C4 as stated: with every DB variable absent, `db_ping`
returns the reason string `db_config_missing`, not `config_missing`. -/
theorem db_ping_missing_config_counterexample :
    db_ping env0 bOk = (false, "db_config_missing") ∧
    db_ping env0 bOk ≠ (false, "config_missing") := ⟨by decide, by decide⟩

/-- C4 (amended): whenever a required database connection setting is absent
(unset or empty), `db_ping` returns `(false, "db_config_missing")`; the
result does not depend on the backend at all, so no network call is made. -/
theorem db_ping_missing_config_no_network (env : Env) (b : Backend)
    (h : ∃ k ∈ DB_REQUIRED_VARS, ¬ envTruthy env k) :
    db_ping env b = (false, "db_config_missing") := by
  have hne : (DB_REQUIRED_VARS.filter (fun k => ¬ envTruthy env k)) ≠ [] := by
    obtain ⟨k, hk, hnt⟩ := h
    intro heq
    rw [List.filter_eq_nil_iff] at heq
    exact absurd hnt (by simpa using heq k hk)
  simp only [db_ping, db_dsn_or_empty]
  simp only [if_pos hne, if_true]

/-- Witness for C4 (amended): the empty environment with an unreachable
backend still reports only the missing configuration. -/
theorem db_ping_missing_config_no_network_witness :
    db_ping env0 bDown = (false, "db_config_missing") :=
  db_ping_missing_config_no_network env0 bDown ⟨"DB_HOST", by decide, by decide⟩

/-- Counterexample to C5 as stated: on a connection failure with exception
type `OSError`, the reason string is `db_unreachable:OSError`, which is not
of the form `unreachable:` followed by a cause tag. -/
theorem db_ping_unreachable_counterexample :
    db_ping env1 bDown = (false, "db_unreachable:OSError") ∧
    ∀ tag, "db_unreachable:OSError" ≠ "unreachable:" ++ tag := by
  refine ⟨by decide, fun tag h => ?_⟩
  have h2 := congrArg String.data h
  simp [String.data_append] at h2

/-- C5 (amended): for every backend failure, `db_ping` returns the tuple
`(false, "db_unreachable:<cause-tag>")` with the cause tag the exception
type name; the function is total, so the caller always receives a tuple and
never an exception. -/
theorem db_ping_failure_tuple (env : Env) (b : Backend) (e : String)
    (h1 : db_dsn_or_empty env ≠ "") (h2 : b.connect = .error e) :
    db_ping env b = (false, "db_unreachable:" ++ e) := by
  simp [db_ping, h1, h2]

/-- Witness for C5 (amended) at a concrete failing backend. -/
theorem db_ping_failure_tuple_witness :
    db_ping env1 bDown = (false, "db_unreachable:" ++ "OSError") :=
  db_ping_failure_tuple env1 bDown "OSError" (by decide) rfl

/-- C6: `get_order` returns a 503 dependency error when the store is
misconfigured or unreachable, a 404 not-found error when it is reachable but
no row matches, and otherwise the stored order with its quantity value and
with `created_at` rendered by `isoformat` when non-null and absent when
null. -/
theorem get_order_result_spec (env : Env) (b : Backend) (oid : String) :
    (db_dsn_or_empty env = "" → get_order env b oid = .error ⟨503, "db_config_missing"⟩) ∧
    (∀ e, db_dsn_or_empty env ≠ "" → b.connect = .error e →
      get_order env b oid = .error ⟨503, "db_unreachable"⟩) ∧
    (db_dsn_or_empty env ≠ "" → b.connect = .ok () →
      b.store.find? (fun r => r.id = oid) = none →
      get_order env b oid = .error ⟨404, "order_not_found"⟩) ∧
    (∀ r, db_dsn_or_empty env ≠ "" → b.connect = .ok () →
      b.store.find? (fun r => r.id = oid) = some r →
      get_order env b oid = .ok ⟨r.id, r.symbol, r.side, r.qty, r.status,
        r.created_at.map Timestamp.iso⟩) := by
  refine ⟨fun h1 => ?_, fun e h1 h2 => ?_, fun h1 h2 h3 => ?_, fun r h1 h2 h3 => ?_⟩
  · simp [get_order, db_connect, h1]
  · simp [get_order, db_connect, h1, h2]
  · simp [get_order, db_connect, h1, h2, h3]
  · simp [get_order, db_connect, h1, h2, h3]

/-- Witness for C6: the four outcomes at concrete states — missing
configuration, unreachable backend, reachable store without the row, and
reachable store holding the row. -/
theorem get_order_result_spec_witness :
    (get_order env0 bOk "a" = .error ⟨503, "db_config_missing"⟩) ∧
    (get_order env1 bDown "a" = .error ⟨503, "db_unreachable"⟩) ∧
    (get_order env1 bOk "a" = .error ⟨404, "order_not_found"⟩) ∧
    (get_order env1 bRow "id0" = .ok ⟨row0.id, row0.symbol, row0.side, row0.qty,
      row0.status, row0.created_at.map Timestamp.iso⟩) :=
  ⟨(get_order_result_spec env0 bOk "a").1 (by decide),
   (get_order_result_spec env1 bDown "a").2.1 "OSError" (by decide) rfl,
   (get_order_result_spec env1 bOk "a").2.2.1 (by decide) rfl rfl,
   (get_order_result_spec env1 bRow "id0").2.2.2 row0 (by decide) rfl rfl⟩

/-- C7: with the store reachable, `create_order("BTC","buy",1.5)` succeeds
with the generated identifier, and `get_order` on that identifier returns an
order with `qty = 1.5`, status `accepted`, and a non-null server-assigned
`created_at`. -/
theorem create_then_get_roundtrip (env : Env) (b : Backend)
    (h1 : db_dsn_or_empty env ≠ "") (h2 : b.connect = .ok ()) :
    (create_order env b "BTC" "buy" (3/2)).1 = .ok ⟨b.freshId, "accepted"⟩ ∧
    ∃ out, get_order env { b with store := (create_order env b "BTC" "buy" (3/2)).2 }
        b.freshId = .ok out ∧
      out.qty = 3/2 ∧ out.status = "accepted" ∧ out.created_at ≠ none := by
  have hq : ¬ ((3/2 : Rat) ≤ 0) := by norm_num
  have hs : pyUpper "BTC" = "BTC" := by decide
  have hd : pyLower "buy" = "buy" := by decide
  have hco : create_order env b "BTC" "buy" (3/2) =
      (.ok ⟨b.freshId, "accepted"⟩,
       ⟨b.freshId, "BTC", "buy", 3/2, "accepted", serverAssignedCreatedAt b⟩ :: b.store) := by
    simp [create_order, hs, hd, hq, db_connect, h1, h2]
  refine ⟨by rw [hco],
    ⟨b.freshId, "BTC", "buy", 3/2, "accepted", some b.now.iso⟩, ?_, rfl, rfl, by simp⟩
  rw [hco]
  simp [get_order, db_connect, h1, h2, serverAssignedCreatedAt]

/-- Witness for C7: the round trip on a concrete reachable backend. -/
theorem create_then_get_roundtrip_witness :
    (create_order env1 bOk "BTC" "buy" (3/2)).1 = .ok ⟨bOk.freshId, "accepted"⟩ ∧
    ∃ out, get_order env1 { bOk with store := (create_order env1 bOk "BTC" "buy" (3/2)).2 }
        bOk.freshId = .ok out ∧
      out.qty = 3/2 ∧ out.status = "accepted" ∧ out.created_at ≠ none :=
  create_then_get_roundtrip env1 bOk (by decide) rfl

/-- C8: case normalization — `price` gives the same result on a symbol and on
its uppercased form, and `create_order` gives the same result after
uppercasing the symbol and lowercasing the side. -/
theorem price_create_order_case_normalization (s : String) (env : Env) (b : Backend)
    (symbol side : String) (qty : Rat) :
    price s = price (pyUpper s) ∧
    create_order env b symbol side qty
      = create_order env b (pyUpper symbol) (pyLower side) qty := by
  constructor
  · simp [price, pyUpper_idem]
  · simp [create_order, pyUpper_idem, pyLower_idem]

/-- C9: the liveness endpoint returns `ok := true` in every state — with the
configuration never loaded and the backend unreachable included — and never
raises, so liveness is independent of dependency health. -/
theorem health_always_ok (cfg : Option Config) (env : Env) (b : Backend) :
    health cfg env b = .ok ⟨true⟩ := rfl

/-- C10: `price` is a deterministic total function of its input performing no
dependency access: symbols uppercasing to `BTC` and `ETH` map to their fixed
quotes, every other string maps to the `unsupported_symbol` validation
error. -/
theorem price_total_function_spec (s : String) :
    price s = if pyUpper s = "BTC" then .ok ⟨"BTC", 52000⟩
      else if pyUpper s = "ETH" then .ok ⟨"ETH", 3100⟩
      else .error ⟨400, "unsupported_symbol"⟩ := by
  by_cases h1 : pyUpper s = "BTC"
  · simp [price, prices, List.lookup, h1]
  · by_cases h2 : pyUpper s = "ETH"
    · simp [price, prices, List.lookup, beq_iff_eq, h1, h2]
    · have hb1 : (pyUpper s == "BTC") = false := beq_eq_false_iff_ne.mpr h1
      have hb2 : (pyUpper s == "ETH") = false := beq_eq_false_iff_ne.mpr h2
      simp [price, prices, List.lookup, h1, h2, hb1, hb2]

end StackPilot
